import Mathlib

/-!
# Verification of the title-search-app core contracts

This development shallowly embeds the behavior of the title-search-app
repository relevant to its specification: the UI-side risk-band mapping,
error-message extraction and error-panel gating (translated directly from
the frontend TypeScript sources), and the pipeline / analysis core
(ChainAnalyzer, ErrorClassifier, RecoveryAdvisor, RiskScorer,
PipelineController), which lives in the backend that is not part of the
provided sources and is therefore modelled from the specification text.
-/

namespace TitleSearch

/-! ## Risk bands (UI components)

Two frontend components map a numeric risk score to a display band:
the report-detail page and the reports-list page. For comparison we use
an abstract band type and the spec's threshold table. -/

/-- The five display bands named by the specification. -/
inductive RiskBand
  | low
  | moderate
  | elevated
  | high
  | critical
  deriving DecidableEq, Repr

/-- Band thresholds as the spec words them: 0–19 Low, 20–39 Moderate,
40–59 Elevated, 60–79 High, 80–100 Critical. (Spec-worded definition,
used as the comparison target for the code's band functions.) -/
def specRiskBand (s : Nat) : RiskBand :=
  if s ≤ 19 then RiskBand.low
  else if s ≤ 39 then RiskBand.moderate
  else if s ≤ 59 then RiskBand.elevated
  else if s ≤ 79 then RiskBand.high
  else RiskBand.critical

/-- `getRiskBadge` from the report-detail page: `null` yields no badge;
otherwise the label is chosen by descending threshold tests
`score >= 80 / 60 / 40 / 20`. Returns the badge label. -/
def getRiskBadgeReportDetail (score : Option Int) : Option String :=
  match score with
  | none => none
  | some s =>
    some (if 80 ≤ s then "Critical"
          else if 60 ≤ s then "High Risk"
          else if 40 ≤ s then "Elevated"
          else if 20 ≤ s then "Moderate"
          else "Low Risk")

/-- `getRiskLabel` from the reports-list page: `null` yields `"N/A"`;
otherwise `score <= 30` is `"Low Risk"`, `score <= 60` is
`"Medium Risk"`, and anything above is `"High Risk"`. -/
def getRiskLabelReportsList (score : Option Int) : String :=
  match score with
  | none => "N/A"
  | some s =>
    if s ≤ 30 then "Low Risk"
    else if s ≤ 60 then "Medium Risk"
    else "High Risk"

/-- `getRiskBadge` from the reports-list page (the CSS class chosen for
the badge): `null` yields gray, `score <= 30` green, `score <= 60`
yellow, anything above red. -/
def getRiskBadgeReportsList (score : Option Int) : String :=
  match score with
  | none => "bg-gray-100 text-gray-600"
  | some s =>
    if s ≤ 30 then "bg-green-100 text-green-800"
    else if s ≤ 60 then "bg-yellow-100 text-yellow-800"
    else "bg-red-100 text-red-800"

/-- Interpretation of a UI badge label as one of the five spec bands;
labels outside the spec's vocabulary have no band. -/
def labelBand (label : String) : Option RiskBand :=
  if label = "Low Risk" ∨ label = "Low" then some RiskBand.low
  else if label = "Moderate" then some RiskBand.moderate
  else if label = "Elevated" then some RiskBand.elevated
  else if label = "High Risk" ∨ label = "High" then some RiskBand.high
  else if label = "Critical" then some RiskBand.critical
  else none

/-! ## `getErrorMessage` (frontend `lib`)

The function inspects an arbitrary JS value. We embed exactly the
observations the code makes of its argument: whether
`axios.isAxiosError` holds, the optional `response.data` payload with
its `detail` (string or array of `{msg}`) and `message` fields, the
axios `code`, whether the value is an `Error` instance, and its
`message` in that case. JS truthiness of the inspected strings is
modelled by emptiness tests. -/

/-- The `detail` field of an API error payload: a string or an array of
validation messages (the code reads `d.msg` of each element). -/
inductive JsDetail
  | str (s : String)
  | arr (msgs : List String)
  deriving DecidableEq, Repr

/-- The `response.data` payload shape `{detail?, message?}`. -/
structure JsApiData where
  detail : Option JsDetail
  message : Option String
  deriving DecidableEq, Repr

/-- The observations `getErrorMessage` makes of its `unknown` argument. -/
structure JsError where
  isAxiosError : Bool
  responseData : Option JsApiData
  code : Option String
  isErrorInstance : Bool
  message : String
  deriving DecidableEq, Repr

/-- The `data?.detail` block: a non-empty string detail is returned as
is; a non-empty array is joined with `", "`; an empty string is falsy
(the block is skipped) and an empty array falls through its inner
tests. -/
def detailMessage (data : JsApiData) : Option String :=
  match data.detail with
  | some (JsDetail.str s) => if s = "" then none else some s
  | some (JsDetail.arr msgs) =>
    if msgs.isEmpty then none else some (String.intercalate ", " msgs)
  | none => none

/-- The `data` part of the axios branch: the detail block, then the
`data?.message` field (skipped when falsy). -/
def dataMessage (data : JsApiData) : Option String :=
  match detailMessage data with
  | some m => some m
  | none =>
    match data.message with
    | some m => if m = "" then none else some m
    | none => none

/-- The axios branch of `getErrorMessage`: detail block, then
`data?.message`, then the `ERR_NETWORK` / `ECONNABORTED` code tests. -/
def axiosBranch (error : JsError) : Option String :=
  match (match error.responseData with
         | some data => dataMessage data
         | none => none) with
  | some m => some m
  | none =>
    if error.code = some "ERR_NETWORK" then
      some "Network error. Please check your connection."
    else if error.code = some "ECONNABORTED" then
      some "Request timed out. Please try again."
    else none

/-- `getErrorMessage` from the frontend `lib`: the axios branch when
`axios.isAxiosError`, then `error.message` for `Error` instances, then
the supplied default. -/
def getErrorMessage (error : JsError) (defaultMessage : String) : String :=
  match (if error.isAxiosError then axiosBranch error else none) with
  | some m => m
  | none => if error.isErrorInstance then error.message else defaultMessage

/-- The recognized input shapes, stated independently of
`getErrorMessage`: an axios error carrying a non-empty string detail, a
non-empty validation array, a non-empty message field, or one of the
two recognized network codes; or any `Error` instance. -/
def recognizedShape (e : JsError) : Bool :=
  (e.isAxiosError &&
    ((match e.responseData with
      | some data =>
        (match data.detail with
         | some (JsDetail.str s) => decide (s ≠ "")
         | some (JsDetail.arr msgs) => decide (msgs ≠ [])
         | none => false) ||
        (match data.message with
         | some m => decide (m ≠ "")
         | none => false)
      | none => false) ||
     decide (e.code = some "ERR_NETWORK") ||
     decide (e.code = some "ECONNABORTED"))) ||
  e.isErrorInstance

/-! ## `SearchErrorPanel` gating -/

/-- The two non-null renderings of `SearchErrorPanel`. -/
inductive PanelView
  | loadingCard
  | errorCard
  deriving DecidableEq, Repr

/-- The `enabled` flag of the error-detail query:
`status === 'failed'`. -/
def errorsQueryEnabled (status : String) : Bool :=
  status = "failed"

/-- `SearchErrorPanel`'s rendering skeleton: `null` for any status other
than `failed`, the loading card while the query loads, the error card
otherwise. -/
def renderSearchErrorPanel (status : String) (isLoading : Bool) :
    Option PanelView :=
  if status ≠ "failed" then none
  else if isLoading then some PanelView.loadingCard
  else some PanelView.errorCard

end TitleSearch

namespace TitleSearch

/-! ## ChainAnalyzer (modelled from the spec)

The chain-of-title analyzer is part of the FastAPI backend, which is not
among the provided sources; the definitions below are modelled from the
specification text (§4.4 and the graceful-degradation rule of §7). -/

/-- The three break types of a `ChainBreak`. -/
inductive BreakType
  | missing_link
  | unknown_grantor
  | time_gap
  deriving DecidableEq, Repr

/-- The three break severities; exactly one applies per break. -/
inductive BreakSeverity
  | critical
  | warning
  | info
  deriving DecidableEq, Repr

/-- An ordered property-transfer record, as produced by document
extraction. Dates are years (entries are pre-sorted ascending by date,
nulls last, and tagged with their 1-based `sequence_number`). -/
structure ChainEntry where
  sequence_number : Nat
  transaction_type : String
  transaction_date : Option Nat
  grantor_names : List String
  grantee_names : List String
  consideration : Option Int
  recording_reference : String
  deriving DecidableEq, Repr

/-- A detected break in the ownership chain. -/
structure ChainBreak where
  break_type : BreakType
  severity : BreakSeverity
  description : String
  from_entry : Option Nat
  to_entry : Option Nat
  from_party : Option String
  to_party : Option String
  from_date : Option Nat
  to_date : Option Nat
  recommendation : String
  deriving DecidableEq, Repr

/-- One owner span of the ownership timeline. -/
structure OwnershipPeriod where
  name : String
  acquired_date : Option Nat
  sold_date : Option Nat
  acquired_from : Option String
  sold_to : Option String
  deriving DecidableEq, Repr

/-- The chain-analysis payload consumed by the UI. -/
structure ChainAnalysis where
  is_clear : Bool
  total_breaks : Nat
  critical_breaks : Nat
  warning_breaks : Nat
  breaks : List ChainBreak
  ownership_summary : List OwnershipPeriod
  analysis_notes : List String
  deriving DecidableEq, Repr

/-- Splits a character list at spaces (a space-separated word
decomposition, possibly with empty words). -/
def wordsAux : List Char → List (List Char)
  | [] => [[]]
  | c :: rest =>
    let ws := wordsAux rest
    if c = ' ' then [] :: ws
    else
      match ws with
      | [] => [[c]]
      | w :: ws2 => (c :: w) :: ws2

/-- Modelled from the spec: party-name normalization for adjacency
matching — case-insensitive, punctuation-stripped, whitespace-collapsed. -/
def normalizeName (s : String) : String :=
  let cleaned := s.data.map (fun c =>
    let lc := c.toLower
    if lc.isAlphanum then lc else ' ')
  String.intercalate " "
    (((wordsAux cleaned).filter (fun w => w ≠ [])).map (fun w => String.mk w))

/-- Whether any name of `xs` matches any name of `ys` after
normalization. -/
def anyNameMatch (xs ys : List String) : Bool :=
  xs.any (fun x => ys.any (fun y => normalizeName x = normalizeName y))

/-- First party of a list, for break descriptions. -/
def headParty (names : List String) : String :=
  names.headD "unknown party"

/-- Modelled from the spec: the checks run on one adjacent entry pair
(adjacency/missing link, unknown grantor, time gap), each emitted break
carrying its generated recommendation. -/
def pairBreaks (thresholdYears : Nat) (a b : ChainEntry) : List ChainBreak :=
  let missingLink : List ChainBreak :=
    if a.grantee_names ≠ [] ∧ anyNameMatch a.grantee_names b.grantor_names = false then
      [{ break_type := BreakType.missing_link
         severity := BreakSeverity.critical
         description := "No grantee of the earlier transfer appears as a grantor of the later transfer"
         from_entry := some a.sequence_number
         to_entry := some b.sequence_number
         from_party := a.grantee_names.head?
         to_party := b.grantor_names.head?
         from_date := a.transaction_date
         to_date := b.transaction_date
         recommendation :=
           "Obtain a corrective deed or quitclaim bridging the gap between " ++
             headParty a.grantee_names ++ " and " ++ headParty b.grantor_names }]
    else []
  let unknownGrantor : List ChainBreak :=
    if b.grantor_names = [] then
      [{ break_type := BreakType.unknown_grantor
         severity := if b.sequence_number ≤ 1 then BreakSeverity.info else BreakSeverity.critical
         description := "Transfer has no grantor of record"
         from_entry := some a.sequence_number
         to_entry := some b.sequence_number
         from_party := a.grantee_names.head?
         to_party := none
         from_date := a.transaction_date
         to_date := b.transaction_date
         recommendation := "Locate the source of title for this transfer" }]
    else []
  let timeGap : List ChainBreak :=
    match a.transaction_date, b.transaction_date with
    | some d1, some d2 =>
      if thresholdYears < d2 - d1 then
        [{ break_type := BreakType.time_gap
           severity := BreakSeverity.warning
           description := "Unusually long gap between recorded transfers"
           from_entry := some a.sequence_number
           to_entry := some b.sequence_number
           from_party := a.grantee_names.head?
           to_party := b.grantor_names.head?
           from_date := some d1
           to_date := some d2
           recommendation := "Search for unrecorded conveyances within the gap period" }]
      else []
    | _, _ => []
  missingLink ++ unknownGrantor ++ timeGap

/-- Append an owner span for each entry that names a grantee, closing
the previous span with the transfer date. -/
def extendTimeline (acc : List OwnershipPeriod) (e : ChainEntry) :
    List OwnershipPeriod :=
  match e.grantee_names.head? with
  | none => acc
  | some g =>
    let closed :=
      match acc.reverse with
      | [] => []
      | lastO :: rest =>
        ({ lastO with sold_date := e.transaction_date, sold_to := some g } :: rest).reverse
    closed ++ [{ name := g
                 acquired_date := e.transaction_date
                 sold_date := none
                 acquired_from := e.grantor_names.head?
                 sold_to := none }]

/-- Modelled from the spec: the ownership timeline, one entry per owner
span (`acquired_date` from the transfer that made them grantee,
`sold_date` from the one that made them grantor). -/
def ownershipTimeline (entries : List ChainEntry) : List OwnershipPeriod :=
  entries.foldl extendTimeline []

/-- Modelled from the spec: ChainAnalyzer — a single forward pass over
adjacent entry pairs, break counts, `is_clear` true iff no critical
break exists, deterministic summary notes; empty input degrades to
`is_clear = false` with a single info note (§7). -/
def analyzeChain (thresholdYears : Nat) (entries : List ChainEntry) :
    ChainAnalysis :=
  if entries.isEmpty then
    { is_clear := false
      total_breaks := 0
      critical_breaks := 0
      warning_breaks := 0
      breaks := []
      ownership_summary := []
      analysis_notes := ["No chain of title entries were available for analysis"] }
  else
    let breaks :=
      ((entries.zip entries.tail).map
        (fun p => pairBreaks thresholdYears p.1 p.2)).flatten
    let owners := ownershipTimeline entries
    let crit := breaks.countP (fun b => decide (b.severity = BreakSeverity.critical))
    let warn := breaks.countP (fun b => decide (b.severity = BreakSeverity.warning))
    { is_clear := breaks.all (fun b => decide (b.severity ≠ BreakSeverity.critical))
      total_breaks := breaks.length
      critical_breaks := crit
      warning_breaks := warn
      breaks := breaks
      ownership_summary := owners
      analysis_notes :=
        [(if crit = 0 then "Chain appears complete" else "Chain has critical breaks"),
         "Total owners: " ++ toString owners.length,
         "Total issues found: " ++ toString breaks.length] }

end TitleSearch

namespace TitleSearch

/-! ## ErrorClassifier (modelled from the spec)

The classifier lives in the backend, not among the provided sources;
modelled from §4.2: ordered rule-based category, per-category default
severity escalated on ≥ 3 consecutive same-category failures, and
transience by category unless a raw override is present. -/

/-- Error categories of an `ErrorRecord`. -/
inductive ErrorCategory
  | network
  | timeout
  | rate_limit
  | auth
  | scraping
  | unknown
  deriving DecidableEq, Repr

/-- Error severities of an `ErrorRecord`. -/
inductive ErrorSeverity
  | low
  | medium
  | high
  | critical
  deriving DecidableEq, Repr

/-- A raw stage-failure signal as consumed by the classifier: the
explicit signals its ordered rules test, the originating stage, the
optional explicit transience override, and the current same-category
consecutive-failure count. -/
structure RawFailure where
  message : String
  networkSignal : Bool
  timeoutSignal : Bool
  throttleSignal : Bool
  authSignal : Bool
  originStage : String
  transientOverride : Option Bool
  consecutiveFailures : Nat
  deriving DecidableEq, Repr

/-- A structured error record appended to a Job's `error_log`. -/
structure ErrorRecord where
  stage_name : String
  raw_message : String
  category : ErrorCategory
  severity : ErrorSeverity
  is_transient : Bool
  recommended_action : String
  deriving DecidableEq, Repr

/-- Modelled from the spec: ordered classification rules — network,
then timeout, then throttling (HTTP 429), then auth, then
scraping-stage origin, else unknown. -/
def classifyCategory (f : RawFailure) : ErrorCategory :=
  if f.networkSignal then ErrorCategory.network
  else if f.timeoutSignal then ErrorCategory.timeout
  else if f.throttleSignal then ErrorCategory.rate_limit
  else if f.authSignal then ErrorCategory.auth
  else if f.originStage = "scraping" then ErrorCategory.scraping
  else ErrorCategory.unknown

/-- Modelled from the spec: severity defaults per category. -/
def defaultSeverity : ErrorCategory → ErrorSeverity
  | ErrorCategory.network => ErrorSeverity.low
  | ErrorCategory.timeout => ErrorSeverity.low
  | ErrorCategory.rate_limit => ErrorSeverity.medium
  | ErrorCategory.auth => ErrorSeverity.critical
  | ErrorCategory.scraping => ErrorSeverity.high
  | ErrorCategory.unknown => ErrorSeverity.medium

/-- One-level severity escalation. -/
def escalate : ErrorSeverity → ErrorSeverity
  | ErrorSeverity.low => ErrorSeverity.medium
  | ErrorSeverity.medium => ErrorSeverity.high
  | ErrorSeverity.high => ErrorSeverity.critical
  | ErrorSeverity.critical => ErrorSeverity.critical

/-- The transient categories: network, timeout, rate_limit. -/
def transientCategory : ErrorCategory → Bool
  | ErrorCategory.network => true
  | ErrorCategory.timeout => true
  | ErrorCategory.rate_limit => true
  | _ => false

/-- Free-text recommendation per category. -/
def recommendedActionFor : ErrorCategory → String
  | ErrorCategory.network => "Check connectivity and retry"
  | ErrorCategory.timeout => "Retry; consider a longer timeout"
  | ErrorCategory.rate_limit => "Wait for the rate limit to reset and retry"
  | ErrorCategory.auth => "Verify the credentials for the data source"
  | ErrorCategory.scraping => "Upload the documents manually"
  | ErrorCategory.unknown => "Inspect the error log"

/-- Modelled from the spec: ErrorClassifier — pure mapping from a raw
failure to an `ErrorRecord`. -/
def classifyError (f : RawFailure) : ErrorRecord :=
  let cat := classifyCategory f
  { stage_name := f.originStage
    raw_message := f.message
    category := cat
    severity :=
      if 3 ≤ f.consecutiveFailures then escalate (defaultSeverity cat)
      else defaultSeverity cat
    is_transient :=
      match f.transientOverride with
      | some b => b
      | none => transientCategory cat
    recommended_action := recommendedActionFor cat }

/-! ## PipelineController state machine (modelled from the spec)

The controller lives in the backend; the step relation below is
modelled from §4.1 and §3. Stages follow the `SearchStatus` enum the
frontend consumes. -/

/-- Pipeline stages, in pipeline order, plus the terminal states. -/
inductive Stage
  | pending
  | queued
  | scraping
  | analyzing
  | generating
  | completed
  | failed
  | cancelled
  deriving DecidableEq, Repr

/-- The §4.1 progress ceiling of each stage (`Failed` / `Cancelled`
freeze progress at its last value; see `jobCeil`). -/
def stageCeil : Stage → Nat
  | Stage.pending => 0
  | Stage.queued => 10
  | Stage.scraping => 60
  | Stage.analyzing => 85
  | Stage.generating => 99
  | Stage.completed => 100
  | Stage.failed => 0
  | Stage.cancelled => 0

/-- The executing (non-queue, non-terminal) stages. -/
def execStage : Stage → Bool
  | Stage.scraping => true
  | Stage.analyzing => true
  | Stage.generating => true
  | _ => false

/-- The terminal stages. -/
def terminalStage : Stage → Bool
  | Stage.completed => true
  | Stage.failed => true
  | Stage.cancelled => true
  | _ => false

/-- The stage executed after a given checkpoint. -/
def stageSucc : Stage → Stage
  | Stage.queued => Stage.scraping
  | Stage.scraping => Stage.analyzing
  | Stage.analyzing => Stage.generating
  | Stage.generating => Stage.completed
  | s => s

/-- A Job (a "search"): current stage, progress, the last fully
completed stage (its checkpoint), status message, append-only error
log, and retry count. -/
structure Job where
  stage : Stage
  progress_percent : Nat
  checkpoint : Stage
  status_message : Option String
  error_log : List ErrorRecord
  retry_count : Nat
  deriving DecidableEq, Repr

/-- The §4.1 table ceiling of a Job's current stage, with `Failed` and
`Cancelled` frozen at the Job's last progress value. -/
def jobCeil (j : Job) : Nat :=
  match j.stage with
  | Stage.failed => j.progress_percent
  | Stage.cancelled => j.progress_percent
  | s => stageCeil s

/-- The configurable retry ceiling (reference default). -/
def maxRetryCeiling : Nat := 3

/-- Events accepted by the controller. -/
inductive Event
  | enqueue
  | trigger
  | progressUpdate (p : Nat)
  | stageSuccess
  | stageFailure (f : RawFailure)
  | retryRequest
  | cancelRequest
  | markPartialComplete
  deriving DecidableEq, Repr

/-- Modelled from the spec: the pipeline step relation (§4.1).
Transitions are strictly forward except `Failed → Queued` on retry
(resuming from the checkpoint, progress reset to the checkpoint's
ceiling per §3), non-terminal → `Cancelled`, and `Failed → Completed`
on mark-partial-complete. A stage failure is classified and appended to
the log; a transient failure below the retry ceiling re-enters the same
stage, any other failure moves the Job to `Failed` with a status
message. -/
inductive Step : Job → Event → Job → Prop
  | enqueue (j : Job) (h : j.stage = Stage.pending) :
      Step j Event.enqueue
        { j with stage := Stage.queued
                 progress_percent := 10
                 checkpoint := Stage.queued }
  | trigger (j : Job) (h : j.stage = Stage.queued)
      (hc : j.checkpoint = Stage.queued ∨ j.checkpoint = Stage.scraping ∨
        j.checkpoint = Stage.analyzing) :
      Step j Event.trigger { j with stage := stageSucc j.checkpoint }
  | progressUpdate (j : Job) (p : Nat) (h : execStage j.stage = true)
      (hlo : j.progress_percent ≤ p) (hhi : p ≤ stageCeil j.stage) :
      Step j (Event.progressUpdate p) { j with progress_percent := p }
  | stageSuccessMid (j : Job) (h : execStage j.stage = true)
      (hg : j.stage ≠ Stage.generating) :
      Step j Event.stageSuccess
        { j with checkpoint := j.stage
                 stage := stageSucc j.stage
                 progress_percent := stageCeil j.stage }
  | stageSuccessFinal (j : Job) (h : j.stage = Stage.generating) :
      Step j Event.stageSuccess
        { j with checkpoint := Stage.generating
                 stage := Stage.completed
                 progress_percent := 100 }
  | stageFailureTransient (j : Job) (f : RawFailure)
      (h : execStage j.stage = true)
      (ht : (classifyError f).is_transient = true)
      (hr : j.retry_count + 1 < maxRetryCeiling) :
      Step j (Event.stageFailure f)
        { j with error_log := j.error_log ++ [classifyError f]
                 retry_count := j.retry_count + 1 }
  | stageFailureFatal (j : Job) (f : RawFailure)
      (h : execStage j.stage = true)
      (hf : (classifyError f).is_transient = false ∨
        maxRetryCeiling ≤ j.retry_count + 1) :
      Step j (Event.stageFailure f)
        { j with stage := Stage.failed
                 error_log := j.error_log ++ [classifyError f]
                 retry_count := j.retry_count + 1
                 status_message := some ("Stage failed: " ++ f.message) }
  | retryRequest (j : Job) (h : j.stage = Stage.failed) :
      Step j Event.retryRequest
        { j with stage := Stage.queued
                 progress_percent := stageCeil j.checkpoint
                 status_message := some "Retrying from last checkpoint" }
  | cancelRequest (j : Job) (h : terminalStage j.stage = false) :
      Step j Event.cancelRequest { j with stage := Stage.cancelled }
  | markPartialComplete (j : Job) (h : j.stage = Stage.failed) :
      Step j Event.markPartialComplete { j with stage := Stage.completed }

/-- A freshly created Job. -/
def initJob : Job :=
  { stage := Stage.pending
    progress_percent := 0
    checkpoint := Stage.pending
    status_message := none
    error_log := []
    retry_count := 0 }

/-- Jobs reachable from creation through the step relation. -/
inductive Reachable : Job → Prop
  | init : Reachable initJob
  | step (j j' : Job) (e : Event) (hj : Reachable j) (hs : Step j e j') :
      Reachable j'

end TitleSearch

namespace TitleSearch

/-! ## RecoveryAdvisor (modelled from the spec, §4.3) -/

/-- The recovery actions a failed Job can offer. -/
inductive ActionKind
  | retryAction
  | partialCompleteAction
  | cancelAction
  | manualUploadAction
  deriving DecidableEq, Repr

/-- A user-facing recovery action `{action, label, description}`. -/
structure RecoveryAction where
  action : ActionKind
  label : String
  description : String
  deriving DecidableEq, Repr

/-- The retry offer. -/
def retryOffer : RecoveryAction :=
  { action := ActionKind.retryAction
    label := "Retry"
    description := "Retry from the last checkpoint" }

/-- The partial-complete offer. -/
def partialCompleteOffer : RecoveryAction :=
  { action := ActionKind.partialCompleteAction
    label := "Accept partial results"
    description := "Freeze the result at the data gathered so far" }

/-- The cancel offer. -/
def cancelOffer : RecoveryAction :=
  { action := ActionKind.cancelAction
    label := "Cancel"
    description := "Abandon the search" }

/-- The manual-upload offer. -/
def manualUploadOffer : RecoveryAction :=
  { action := ActionKind.manualUploadAction
    label := "Upload documents"
    description := "Provide the documents manually" }

/-- Occurrences of a category in an error log. -/
def categoryCount (log : List ErrorRecord) (c : ErrorCategory) : Nat :=
  log.countP (fun r => decide (r.category = c))

/-- Modelled from the spec: the dominant error category of a log (the
most frequent one). -/
def dominantCategory (log : List ErrorRecord) : ErrorCategory :=
  [ErrorCategory.network, ErrorCategory.timeout, ErrorCategory.rate_limit,
   ErrorCategory.auth, ErrorCategory.scraping].foldl
    (fun best c =>
      if categoryCount log best < categoryCount log c then c else best)
    ErrorCategory.unknown

/-- The longest current streak of same-category failures at the end of
the log. -/
def trailingStreak (log : List ErrorRecord) : Nat :=
  match log.reverse with
  | [] => 0
  | r :: rest =>
    1 + (rest.takeWhile (fun x => decide (x.category = r.category))).length

/-- The `error_summary` of the recovery payload. -/
structure ErrorSummary where
  total_errors : Nat
  consecutive_failures : Nat
  progress_saved : Nat
  deriving DecidableEq, Repr

/-- Modelled from the spec: the summary derived from the log and the
last completed stage. -/
def errorSummaryOf (log : List ErrorRecord) (checkpoint : Stage) :
    ErrorSummary :=
  { total_errors := log.length
    consecutive_failures := trailingStreak log
    progress_saved := stageCeil checkpoint }

/-- Free-text suggestions keyed off the dominant category. -/
def suggestionsFor : ErrorCategory → List String
  | ErrorCategory.network => ["Check the network connection", "Retry the search"]
  | ErrorCategory.timeout => ["The data source is slow; retry later"]
  | ErrorCategory.rate_limit => ["Wait a few minutes before retrying"]
  | ErrorCategory.auth => ["Update the credentials for this county"]
  | ErrorCategory.scraping => ["Upload the county documents manually"]
  | ErrorCategory.unknown => ["Review the error log for details"]

/-- Whether the checkpoint shows the job reached at least the
`Analyzing` stage (i.e. completed `Scraping`) before failing. -/
def reachedAnalyzing (checkpoint : Stage) : Bool :=
  match checkpoint with
  | Stage.scraping => true
  | Stage.analyzing => true
  | Stage.generating => true
  | _ => false

/-- Modelled from the spec: RecoveryAdvisor's `recovery_actions` —
`retry` when a transient error exists or the retry count is below the
ceiling, `partial_complete` only when the job reached `Analyzing`,
`manual_upload` when the dominant category is scraping or auth, and
`cancel` always. -/
def recoveryActions (log : List ErrorRecord) (retryCount : Nat)
    (checkpoint : Stage) : List RecoveryAction :=
  (if log.any (fun r => r.is_transient) || decide (retryCount < maxRetryCeiling)
   then [retryOffer] else []) ++
  (if reachedAnalyzing checkpoint then [partialCompleteOffer] else []) ++
  (if dominantCategory log = ErrorCategory.scraping ∨
      dominantCategory log = ErrorCategory.auth
   then [manualUploadOffer] else []) ++
  [cancelOffer]

/-! ## RiskScorer (modelled from the spec, §4.5) -/

/-- Per-encumbrance risk levels. -/
inductive RiskLevel
  | low
  | medium
  | high
  | critical
  deriving DecidableEq, Repr

/-- An encumbrance record's source fields (the derived `risk_level` and
`requires_action` are computed below). -/
structure EncumbranceRecord where
  encumbrance_type : String
  status : String
  holder_name : Option String
  original_amount : Option Int
  current_amount : Option Int
  recorded_date : Option Nat
  deriving DecidableEq, Repr

/-- Modelled from the spec: derived `risk_level` — critical for active
lien/judgment/lis_pendens/bankruptcy, high for an active unmatched
mortgage/deed-of-trust, medium for an active easement/UCC filing, low
for released or any other non-active status (and for active types the
spec gives no rule for). -/
def encumbranceRiskLevel (e : EncumbranceRecord) : RiskLevel :=
  if e.status = "active" ∧
      (e.encumbrance_type = "lien" ∨ e.encumbrance_type = "judgment" ∨
       e.encumbrance_type = "lis_pendens" ∨ e.encumbrance_type = "bankruptcy")
  then RiskLevel.critical
  else if e.status = "active" ∧
      (e.encumbrance_type = "mortgage" ∨ e.encumbrance_type = "deed_of_trust")
  then RiskLevel.high
  else if e.status = "active" ∧
      (e.encumbrance_type = "easement" ∨ e.encumbrance_type = "ucc_filing")
  then RiskLevel.medium
  else RiskLevel.low

/-- Derived `requires_action`: true for high or critical risk. -/
def encumbranceRequiresAction (e : EncumbranceRecord) : Bool :=
  match encumbranceRiskLevel e with
  | RiskLevel.high => true
  | RiskLevel.critical => true
  | _ => false

/-- Base score contributed by one risk level. -/
def riskLevelBase : RiskLevel → Nat
  | RiskLevel.critical => 80
  | RiskLevel.high => 55
  | RiskLevel.medium => 30
  | RiskLevel.low => 5

/-- Whether an analysis found any critical chain break. -/
def hasCriticalBreak (a : ChainAnalysis) : Bool :=
  decide (a.critical_breaks ≠ 0)

/-- Modelled from the spec: the aggregate 0–100 `risk_score` — the
maximum per-item base score, plus 5 for each additional active
critical/high item beyond the first, plus 10 when the chain analysis
found a critical break, capped at 100. -/
def aggregateRiskScore (encs : List EncumbranceRecord)
    (criticalChainBreak : Bool) : Nat :=
  let base := (encs.map (fun e => riskLevelBase (encumbranceRiskLevel e))).foldl max 0
  let activeCritHigh := encs.countP (fun e =>
    decide (e.status = "active") &&
    (match encumbranceRiskLevel e with
     | RiskLevel.critical => true
     | RiskLevel.high => true
     | _ => false))
  let extra := 5 * (activeCritHigh - 1)
  let boost := if criticalChainBreak then 10 else 0
  min 100 (base + extra + boost)

end TitleSearch

namespace TitleSearch

/-! ## The pipeline invariant -/

/-- Checkpoints an admitted Job can carry: the queue admission itself or
a completed executing stage. -/
def ckptOk (s : Stage) : Prop :=
  s = Stage.queued ∨ s = Stage.scraping ∨ s = Stage.analyzing

/-- The inductive invariant of the pipeline state machine: progress is
bounded by 100 and, per state, by the reachable ceiling; failed Jobs
carry diagnostics. -/
def JobInv (j : Job) : Prop :=
  j.progress_percent ≤ 100 ∧
  match j.stage with
  | Stage.pending => j.progress_percent = 0 ∧ j.checkpoint = Stage.pending
  | Stage.queued =>
    ckptOk j.checkpoint ∧
    j.progress_percent ≤ max 10 (stageCeil j.checkpoint)
  | Stage.scraping =>
    ckptOk j.checkpoint ∧ j.progress_percent ≤ stageCeil Stage.scraping
  | Stage.analyzing =>
    ckptOk j.checkpoint ∧ j.progress_percent ≤ stageCeil Stage.analyzing
  | Stage.generating =>
    ckptOk j.checkpoint ∧ j.progress_percent ≤ stageCeil Stage.generating
  | Stage.completed => True
  | Stage.failed =>
    j.error_log ≠ [] ∧ j.status_message.isSome = true ∧ ckptOk j.checkpoint
  | Stage.cancelled => True

/-- One step preserves the invariant. -/
theorem stepPreservesInv {j j' : Job} {e : Event} (hs : Step j e j')
    (ih : JobInv j) : JobInv j' := by
  obtain ⟨st, pr, ck, sm, el, rc⟩ := j
  cases hs with
  | enqueue h =>
    simp only at h
    subst h
    simp_all [JobInv, ckptOk, stageCeil]
  | trigger h hc =>
    simp only at h hc
    subst h
    rcases hc with h1 | h1 | h1 <;> subst h1 <;>
      simp_all [JobInv, ckptOk, stageCeil, stageSucc] <;> omega
  | progressUpdate p h hlo hhi =>
    simp only at h hlo hhi
    cases st <;> simp_all [JobInv, ckptOk, stageCeil, execStage] <;> omega
  | stageSuccessMid h hg =>
    simp only at h hg
    cases st <;> simp_all [JobInv, ckptOk, stageCeil, execStage, stageSucc]
  | stageSuccessFinal h =>
    simp only at h
    subst h
    simp_all [JobInv, ckptOk, stageCeil, execStage, stageSucc]
  | stageFailureTransient f h ht hr =>
    simp only at h
    cases st <;> simp_all [JobInv, ckptOk, stageCeil, execStage]
  | stageFailureFatal f h hf =>
    simp only at h
    cases st <;> simp_all [JobInv, ckptOk, stageCeil, execStage]
  | retryRequest h =>
    simp only at h
    subst h
    have hck := (And.right ih).2.2
    rcases hck with h1 | h1 | h1 <;> simp only at h1 <;> subst h1 <;>
      simp_all [JobInv, ckptOk, stageCeil]
  | cancelRequest h =>
    cases st <;> simp_all [JobInv, ckptOk, stageCeil, terminalStage]
  | markPartialComplete h =>
    simp only at h
    subst h
    simp_all [JobInv, ckptOk, stageCeil]

/-- Every reachable Job satisfies the invariant. -/
theorem reachableInv (j : Job) (hr : Reachable j) : JobInv j := by
  induction hr with
  | init => simp [JobInv, initJob]
  | step j j' e hj hs ih => exact stepPreservesInv hs ih

/-- Progress is non-decreasing across every step other than a retry
request. -/
theorem stepMonotone {j j' : Job} {e : Event} (hs : Step j e j')
    (ih : JobInv j) (hne : e ≠ Event.retryRequest) :
    j.progress_percent ≤ j'.progress_percent := by
  obtain ⟨st, pr, ck, sm, el, rc⟩ := j
  cases hs with
  | enqueue h =>
    simp only at h
    subst h
    simp only [JobInv] at ih
    simp
    omega
  | trigger h hc => simp
  | progressUpdate p h hlo hhi => simpa using hlo
  | stageSuccessMid h hg =>
    simp only at h hg
    cases st <;> simp_all [JobInv, stageCeil, execStage]
  | stageSuccessFinal h =>
    simp only at h
    subst h
    simp only [JobInv] at ih
    simp
    omega
  | stageFailureTransient f h ht hr => simp
  | stageFailureFatal f h hf => simp
  | retryRequest h => exact absurd rfl hne
  | cancelRequest h => simp
  | markPartialComplete h => simp

end TitleSearch

namespace TitleSearch

/-! ## Claim C1: risk-score display bands -/

/-- C1, counterexample: the claim says every UI component mapping a
risk score to a band label uses the 0–19/20–39/40–59/60–79/80–100
thresholds, but the reports-list page puts score 25 in its lowest band
while the spec thresholds put 25 in Moderate. -/
theorem c1_counterexample :
    labelBand (getRiskLabelReportsList (some 25)) ≠ some (specRiskBand 25) := by
  decide

/-- C1, amended: the report-detail page's badge follows exactly the
spec thresholds for every score 0–100, but the reports-list page uses
coarser three-way thresholds (0–30 / 31–60 / 61+), so not every UI
component uses the spec thresholds; at score 25 the reports-list page
shows its Low band where the spec thresholds give Moderate. -/
theorem c1_amended :
    (∀ s : Nat, s ≤ 100 →
      (getRiskBadgeReportDetail (some (s : Int))).bind labelBand =
        some (specRiskBand s)) ∧
    labelBand (getRiskLabelReportsList (some 25)) = some RiskBand.low ∧
    specRiskBand 25 = RiskBand.moderate := by
  refine ⟨?_, by decide, by decide⟩
  decide

/-- C1 witness: the amended theorem applied at score 50. -/
theorem c1_amended_witness :
    (getRiskBadgeReportDetail (some ((50 : Nat) : Int))).bind labelBand =
      some (specRiskBand 50) :=
  c1_amended.1 50 (by decide)

/-! ## Claim C2: `is_clear` iff no critical break -/

/-- A break list has no critical member iff its critical count is
zero. -/
theorem noCritAll_iff_countP_zero (l : List ChainBreak) :
    (l.all (fun b => decide (b.severity ≠ BreakSeverity.critical)) = true) ↔
    l.countP (fun b => decide (b.severity = BreakSeverity.critical)) = 0 := by
  induction l with
  | nil => simp
  | cons x xs ih =>
    by_cases h : x.severity = BreakSeverity.critical <;>
      simp [h, List.countP_cons, ih]

/-- C2, counterexample: on empty input the analyzer degrades (§7) to
`is_clear = false` with an empty break list, so `is_clear` is not
equivalent to `critical_breaks = 0` for every chain-analysis result. -/
theorem c2_counterexample :
    ¬ (((analyzeChain 5 []).is_clear = true) ↔
        (analyzeChain 5 []).critical_breaks = 0) := by
  decide

/-- C2, amended: for every analysis of a non-empty entry list,
`is_clear` holds iff there are zero critical breaks, and
`critical_breaks` / `warning_breaks` are the counts of breaks of those
severities in the breaks list (on empty input the analyzer instead
reports `is_clear = false` with no breaks). -/
theorem c2_amended : ∀ (th : Nat) (entries : List ChainEntry),
    entries ≠ [] →
    (((analyzeChain th entries).is_clear = true) ↔
      (analyzeChain th entries).critical_breaks = 0) ∧
    (analyzeChain th entries).critical_breaks =
      (analyzeChain th entries).breaks.countP
        (fun b => decide (b.severity = BreakSeverity.critical)) ∧
    (analyzeChain th entries).warning_breaks =
      (analyzeChain th entries).breaks.countP
        (fun b => decide (b.severity = BreakSeverity.warning)) := by
  intro th entries hne
  cases entries with
  | nil => exact absurd rfl hne
  | cons a t =>
    refine ⟨?_, rfl, rfl⟩
    exact noCritAll_iff_countP_zero _

/-! Scenario inputs (from the spec's §8). -/

/-- Scenario B, entry 1: grantor [], grantee ["Alice"], year 2000. -/
def scenarioB1 : ChainEntry :=
  { sequence_number := 1
    transaction_type := "deed"
    transaction_date := some 2000
    grantor_names := []
    grantee_names := ["Alice"]
    consideration := none
    recording_reference := "" }

/-- Scenario B, entry 2: grantor ["Carol"], grantee ["Bob"], year 2010. -/
def scenarioB2 : ChainEntry :=
  { sequence_number := 2
    transaction_type := "deed"
    transaction_date := some 2010
    grantor_names := ["Carol"]
    grantee_names := ["Bob"]
    consideration := none
    recording_reference := "" }

/-- The Scenario B entry list. -/
def scenarioB : List ChainEntry := [scenarioB1, scenarioB2]

/-- C2 witness: the amended theorem applied to the Scenario B input. -/
theorem c2_amended_witness :
    (((analyzeChain 5 scenarioB).is_clear = true) ↔
      (analyzeChain 5 scenarioB).critical_breaks = 0) ∧
    (analyzeChain 5 scenarioB).critical_breaks =
      (analyzeChain 5 scenarioB).breaks.countP
        (fun b => decide (b.severity = BreakSeverity.critical)) ∧
    (analyzeChain 5 scenarioB).warning_breaks =
      (analyzeChain 5 scenarioB).breaks.countP
        (fun b => decide (b.severity = BreakSeverity.warning)) :=
  c2_amended 5 scenarioB (by decide)

/-! ## Claim C3: Scenario B -/

/-- C3: on the Scenario B input (entry 1 grantor [], grantee ["Alice"],
2000; entry 2 grantor ["Carol"], grantee ["Bob"], 2010), the analyzer
emits exactly one `missing_link` break, reports `critical_breaks = 1`
and `is_clear = false`. -/
theorem c3_scenarioB :
    (analyzeChain 5 scenarioB).breaks.countP
      (fun b => decide (b.break_type = BreakType.missing_link)) = 1 ∧
    (analyzeChain 5 scenarioB).critical_breaks = 1 ∧
    (analyzeChain 5 scenarioB).is_clear = false := by
  decide

end TitleSearch

namespace TitleSearch

/-! ## Claim C4: transience classification -/

/-- C4: for every raw failure, the classified record is transient
exactly when its category is network, timeout, or rate_limit, unless
the raw failure carries an explicit transient override, which wins. -/
theorem c4_transience : ∀ f : RawFailure,
    (f.transientOverride = none →
      ((classifyError f).is_transient = true ↔
        ((classifyError f).category = ErrorCategory.network ∨
         (classifyError f).category = ErrorCategory.timeout ∨
         (classifyError f).category = ErrorCategory.rate_limit))) ∧
    (∀ b : Bool, f.transientOverride = some b →
      (classifyError f).is_transient = b) := by
  intro f
  constructor
  · intro hov
    simp only [classifyError, hov]
    cases classifyCategory f <;> simp [transientCategory]
  · intro b hov
    simp [classifyError, hov]

/-- A persistent auth failure, as emitted by a county adapter. -/
def demoAuthFailure : RawFailure :=
  { message := "401 unauthorized"
    networkSignal := false
    timeoutSignal := false
    throttleSignal := false
    authSignal := true
    originStage := "scraping"
    transientOverride := none
    consecutiveFailures := 1 }

/-- C4 witness: the theorem applied to a concrete auth failure with no
override. -/
theorem c4_transience_witness :
    (classifyError demoAuthFailure).is_transient = true ↔
      ((classifyError demoAuthFailure).category = ErrorCategory.network ∨
       (classifyError demoAuthFailure).category = ErrorCategory.timeout ∨
       (classifyError demoAuthFailure).category = ErrorCategory.rate_limit) :=
  (c4_transience demoAuthFailure).1 rfl

/-! ## Claim C5: failed-job diagnostics -/

/-- The cancel offer is always present, so the action list is never
empty. -/
theorem cancel_mem_recoveryActions (log : List ErrorRecord) (rc : Nat)
    (cp : Stage) :
    cancelOffer ∈ recoveryActions log rc cp ∧
    recoveryActions log rc cp ≠ [] := by
  unfold recoveryActions
  constructor
  · simp
  · intro h
    have := congrArg List.length h
    simp [List.length_append] at this

/-- C5: every reachable Job in the Failed state has a non-empty error
log, a status message, and a non-empty recovery-action list that
contains the cancel action. -/
theorem c5_failedJobDiagnostics : ∀ j : Job, Reachable j →
    j.stage = Stage.failed →
    j.error_log ≠ [] ∧ j.status_message.isSome = true ∧
    recoveryActions j.error_log j.retry_count j.checkpoint ≠ [] ∧
    ActionKind.cancelAction ∈
      (recoveryActions j.error_log j.retry_count j.checkpoint).map
        (fun a => a.action) := by
  intro j hr hf
  have hinv := reachableInv j hr
  rw [JobInv, hf] at hinv
  refine ⟨hinv.2.1, hinv.2.2.1, (cancel_mem_recoveryActions _ _ _).2, ?_⟩
  simpa using
    List.mem_map_of_mem (fun a => a.action)
      (cancel_mem_recoveryActions j.error_log j.retry_count j.checkpoint).1

/-- A concrete failed Job: enqueued, triggered into scraping, then hit
by a fatal auth failure. -/
def demoFailedJob : Job :=
  { stage := Stage.failed
    progress_percent := 10
    checkpoint := Stage.queued
    status_message := some ("Stage failed: " ++ demoAuthFailure.message)
    error_log := [classifyError demoAuthFailure]
    retry_count := 1 }

/-- The demo failed Job is reachable. -/
theorem demoFailedJob_reachable : Reachable demoFailedJob := by
  have r1 : Reachable
      { stage := Stage.queued, progress_percent := 10,
        checkpoint := Stage.queued, status_message := none,
        error_log := [], retry_count := 0 } :=
    Reachable.step _ _ _ Reachable.init (Step.enqueue _ rfl)
  have r2 : Reachable
      { stage := Stage.scraping, progress_percent := 10,
        checkpoint := Stage.queued, status_message := none,
        error_log := [], retry_count := 0 } :=
    Reachable.step _ _ _ r1 (Step.trigger _ rfl (Or.inl rfl))
  exact Reachable.step _ _ _ r2
    (Step.stageFailureFatal _ demoAuthFailure rfl (Or.inl (by decide)))

/-- C5 witness: the theorem applied to the demo failed Job. -/
theorem c5_witness :
    demoFailedJob.error_log ≠ [] ∧
    demoFailedJob.status_message.isSome = true ∧
    recoveryActions demoFailedJob.error_log demoFailedJob.retry_count
      demoFailedJob.checkpoint ≠ [] ∧
    ActionKind.cancelAction ∈
      (recoveryActions demoFailedJob.error_log demoFailedJob.retry_count
        demoFailedJob.checkpoint).map (fun a => a.action) :=
  c5_failedJobDiagnostics demoFailedJob demoFailedJob_reachable rfl

/-! ## Claim C6: retry resumes from the checkpoint -/

/-- C6: a retry request steps only out of the Failed state; it moves
the Job to Queued (not Pending), keeps the checkpoint, the error log
and the retry count, sets the progress to the saved checkpoint ceiling,
and the next trigger resumes at the stage after the checkpoint. -/
theorem c6_retryResume : ∀ j j' : Job, Step j Event.retryRequest j' →
    j.stage = Stage.failed ∧ j'.stage = Stage.queued ∧
    j'.stage ≠ Stage.pending ∧
    j'.checkpoint = j.checkpoint ∧
    j'.progress_percent = stageCeil j.checkpoint ∧
    j'.error_log = j.error_log ∧ j'.retry_count = j.retry_count ∧
    (∀ j2 : Job, Step j' Event.trigger j2 →
      j2.stage = stageSucc j.checkpoint) := by
  intro j j' hs
  cases hs with
  | retryRequest h =>
    refine ⟨h, rfl, by simp, rfl, rfl, rfl, rfl, ?_⟩
    intro j2 ht
    cases ht with
    | trigger h2 hc2 => rfl

/-- The demo failed Job after its retry request. -/
def demoRetriedJob : Job :=
  { stage := Stage.queued
    progress_percent := 10
    checkpoint := Stage.queued
    status_message := some "Retrying from last checkpoint"
    error_log := [classifyError demoAuthFailure]
    retry_count := 1 }

/-- C6 witness: the theorem applied to the concrete retry step out of
the demo failed Job. -/
theorem c6_witness :
    demoFailedJob.stage = Stage.failed ∧
    demoRetriedJob.stage = Stage.queued ∧
    demoRetriedJob.checkpoint = demoFailedJob.checkpoint ∧
    demoRetriedJob.progress_percent = stageCeil demoFailedJob.checkpoint ∧
    demoRetriedJob.error_log = demoFailedJob.error_log :=
  ⟨(c6_retryResume demoFailedJob demoRetriedJob (Step.retryRequest _ rfl)).1,
   (c6_retryResume demoFailedJob demoRetriedJob (Step.retryRequest _ rfl)).2.1,
   (c6_retryResume demoFailedJob demoRetriedJob (Step.retryRequest _ rfl)).2.2.2.1,
   (c6_retryResume demoFailedJob demoRetriedJob (Step.retryRequest _ rfl)).2.2.2.2.1,
   (c6_retryResume demoFailedJob demoRetriedJob (Step.retryRequest _ rfl)).2.2.2.2.2.1⟩

end TitleSearch

namespace TitleSearch

/-! ## Claim C7: progress ceilings and monotonicity -/

/-- A Job re-queued by a retry after failing in `Generating`: its saved
checkpoint progress (85) exceeds the §4.1 ceiling of `Queued` (10). -/
def overCeilingJob : Job :=
  { stage := Stage.queued
    progress_percent := 85
    checkpoint := Stage.analyzing
    status_message := some "Retrying from last checkpoint"
    error_log := [classifyError demoAuthFailure]
    retry_count := 1 }

/-- The over-ceiling Job is reachable: enqueue, run scraping and
analyzing to completion, fail in generating, then retry. -/
theorem overCeilingJob_reachable : Reachable overCeilingJob := by
  have r1 : Reachable
      { stage := Stage.queued, progress_percent := 10,
        checkpoint := Stage.queued, status_message := none,
        error_log := [], retry_count := 0 } :=
    Reachable.step _ _ _ Reachable.init (Step.enqueue _ rfl)
  have r2 : Reachable
      { stage := Stage.scraping, progress_percent := 10,
        checkpoint := Stage.queued, status_message := none,
        error_log := [], retry_count := 0 } :=
    Reachable.step _ _ _ r1 (Step.trigger _ rfl (Or.inl rfl))
  have r3 : Reachable
      { stage := Stage.analyzing, progress_percent := 60,
        checkpoint := Stage.scraping, status_message := none,
        error_log := [], retry_count := 0 } :=
    Reachable.step _ _ _ r2 (Step.stageSuccessMid _ rfl (by decide))
  have r4 : Reachable
      { stage := Stage.generating, progress_percent := 85,
        checkpoint := Stage.analyzing, status_message := none,
        error_log := [], retry_count := 0 } :=
    Reachable.step _ _ _ r3 (Step.stageSuccessMid _ rfl (by decide))
  have r5 : Reachable
      { stage := Stage.failed, progress_percent := 85,
        checkpoint := Stage.analyzing,
        status_message := some ("Stage failed: " ++ demoAuthFailure.message),
        error_log := [classifyError demoAuthFailure], retry_count := 1 } :=
    Reachable.step _ _ _ r4
      (Step.stageFailureFatal _ demoAuthFailure rfl (Or.inl (by decide)))
  exact Reachable.step _ _ _ r5 (Step.retryRequest _ rfl)

/-- C7, counterexample: a reachable Job whose progress exceeds the
§4.1 ceiling of its current stage — the re-queued Job above sits in
`Queued` (ceiling 10) with its preserved checkpoint progress of 85. -/
theorem c7_counterexample :
    Reachable overCeilingJob ∧
    jobCeil overCeilingJob < overCeilingJob.progress_percent :=
  ⟨overCeilingJob_reachable, by decide⟩

/-- C7, amended: for every reachable Job, progress never exceeds the
maximum of the §4.1 ceiling of its current stage (terminal states
frozen at the last value) and the ceiling of its checkpoint — the
current-stage ceiling alone can be exceeded only by the saved progress
of a retried Job — and across any step other than an explicit retry
request progress never decreases. -/
theorem c7_amended :
    (∀ j : Job, Reachable j →
      j.progress_percent ≤ max (jobCeil j) (stageCeil j.checkpoint)) ∧
    (∀ (j : Job) (e : Event) (j' : Job), Reachable j → Step j e j' →
      e ≠ Event.retryRequest →
      j.progress_percent ≤ j'.progress_percent) := by
  constructor
  · intro j hr
    have hinv := reachableInv j hr
    obtain ⟨st, pr, ck, sm, el, rc⟩ := j
    cases st with
    | pending => simp_all [JobInv, jobCeil, stageCeil]
    | queued =>
      obtain ⟨h100, hck, hpr⟩ := hinv
      rcases hck with h1 | h1 | h1 <;> simp only at h1 <;> subst h1 <;>
        simp_all [jobCeil, stageCeil]
    | scraping =>
      obtain ⟨h100, hck, hpr⟩ := hinv
      simp only [jobCeil]
      exact le_trans hpr (le_max_left _ _)
    | analyzing =>
      obtain ⟨h100, hck, hpr⟩ := hinv
      simp only [jobCeil]
      exact le_trans hpr (le_max_left _ _)
    | generating =>
      obtain ⟨h100, hck, hpr⟩ := hinv
      simp only [jobCeil]
      exact le_trans hpr (le_max_left _ _)
    | completed =>
      exact le_trans hinv.1 (le_max_left _ _)
    | failed => exact le_trans (le_refl _) (le_max_left _ _)
    | cancelled => exact le_trans (le_refl _) (le_max_left _ _)
  · intro j e j' hr hs hne
    exact stepMonotone hs (reachableInv j hr) hne

/-- C7 witness: both parts of the amended theorem applied at the
initial Job and its enqueue step. -/
theorem c7_amended_witness :
    initJob.progress_percent ≤
      max (jobCeil initJob) (stageCeil initJob.checkpoint) ∧
    initJob.progress_percent ≤
      (⟨Stage.queued, 10, Stage.queued, none, [], 0⟩ : Job).progress_percent :=
  ⟨c7_amended.1 initJob Reachable.init,
   c7_amended.2 initJob Event.enqueue _ Reachable.init
     (Step.enqueue _ rfl) (by decide)⟩

/-! ## Claim C8: one active lien plus a critical chain break -/

/-- C8: for any encumbrance list holding exactly one active lien and
any chain analysis that found a critical break, the aggregate risk
score is at least 90 and the report-detail badge shows the Critical
band. -/
theorem c8_singleLienCritical :
    ∀ (e : EncumbranceRecord) (a : ChainAnalysis),
      e.status = "active" → e.encumbrance_type = "lien" →
      hasCriticalBreak a = true →
      90 ≤ aggregateRiskScore [e] (hasCriticalBreak a) ∧
      (getRiskBadgeReportDetail
        (some ((aggregateRiskScore [e] (hasCriticalBreak a) : Nat) : Int))).bind
          labelBand = some RiskBand.critical := by
  intro e a hst hty hc
  have hlev : encumbranceRiskLevel e = RiskLevel.critical := by
    simp [encumbranceRiskLevel, hst, hty]
  have hscore : aggregateRiskScore [e] (hasCriticalBreak a) = 90 := by
    rw [hc]
    norm_num [aggregateRiskScore, hlev, hst, riskLevelBase]
  rw [hscore]
  exact ⟨by norm_num, by decide⟩

/-- A concrete active lien. -/
def demoLien : EncumbranceRecord :=
  { encumbrance_type := "lien"
    status := "active"
    holder_name := some "First Bank"
    original_amount := some 100000
    current_amount := some 90000
    recorded_date := some 2015 }

/-- C8 witness: the theorem applied to the concrete lien and the
Scenario B analysis (which has one critical break). -/
theorem c8_witness :
    90 ≤ aggregateRiskScore [demoLien]
      (hasCriticalBreak (analyzeChain 5 scenarioB)) ∧
    (getRiskBadgeReportDetail
      (some ((aggregateRiskScore [demoLien]
        (hasCriticalBreak (analyzeChain 5 scenarioB)) : Nat) : Int))).bind
        labelBand = some RiskBand.critical :=
  c8_singleLienCritical demoLien (analyzeChain 5 scenarioB) rfl rfl (by decide)

end TitleSearch

namespace TitleSearch

/-! ## Claim C9: `getErrorMessage` totality -/

/-- The message `getErrorMessage` resolves before falling back to the
default: the axios branch, then the `Error` message. -/
def resolvedMessage (e : JsError) : Option String :=
  match (if e.isAxiosError then axiosBranch e else none) with
  | some m => some m
  | none => if e.isErrorInstance then some e.message else none

/-- `getErrorMessage` is the resolved message with the default as
fallback. -/
theorem getErrorMessage_eq_getD (e : JsError) (d : String) :
    getErrorMessage e d = (resolvedMessage e).getD d := by
  unfold getErrorMessage resolvedMessage
  cases h : (if e.isAxiosError then axiosBranch e else none) with
  | some m => simp
  | none => cases e.isErrorInstance <;> simp

/-- A message resolves exactly on the recognized shapes. -/
theorem resolvedMessage_isSome (e : JsError) :
    (resolvedMessage e).isSome = recognizedShape e := by
  obtain ⟨ax, rd, code, isErr, msg⟩ := e
  rcases rd with _ | ⟨_ | s | l, _ | m⟩ <;>
    cases ax <;> cases isErr <;>
    (try by_cases hs : s = "") <;> (try by_cases hm : m = "") <;>
    (try cases l) <;>
    by_cases h1 : code = some "ERR_NETWORK" <;>
    by_cases h2 : code = some "ECONNABORTED" <;>
    simp_all [resolvedMessage, axiosBranch, dataMessage, detailMessage,
      recognizedShape]

/-- C9: `getErrorMessage` is total — it always yields a string, the
supplied default exactly when no recognized shape matches, and a
default-independent message otherwise. -/
theorem c9_getErrorMessage : ∀ (e : JsError) (d : String),
    (recognizedShape e = false → getErrorMessage e d = d) ∧
    (recognizedShape e = true →
      ∀ dd : String, getErrorMessage e d = getErrorMessage e dd) := by
  intro e d
  constructor
  · intro h
    have h2 : (resolvedMessage e).isSome = false := by
      rw [resolvedMessage_isSome, h]
    have h3 : resolvedMessage e = none :=
      Option.not_isSome_iff_eq_none.mp (by simp [h2])
    rw [getErrorMessage_eq_getD, h3]
    rfl
  · intro h dd
    have h2 : (resolvedMessage e).isSome = true := by
      rw [resolvedMessage_isSome, h]
    obtain ⟨m, hm⟩ := Option.isSome_iff_exists.mp h2
    rw [getErrorMessage_eq_getD, getErrorMessage_eq_getD, hm]
    rfl

/-- A value that matches none of the recognized shapes. -/
def plainValue : JsError :=
  { isAxiosError := false
    responseData := none
    code := none
    isErrorInstance := false
    message := "" }

/-- C9 witness: on an unrecognized value the supplied default comes
back verbatim. -/
theorem c9_witness :
    getErrorMessage plainValue "An error occurred" = "An error occurred" :=
  (c9_getErrorMessage plainValue "An error occurred").1 (by decide)

/-! ## Claim C10: error-panel gating -/

/-- C10: the panel renders nothing exactly for non-failed statuses, and
the error-detail query is enabled exactly for the failed status. -/
theorem c10_panelGating : ∀ (status : String) (isLoading : Bool),
    ((renderSearchErrorPanel status isLoading = none) ↔
      status ≠ "failed") ∧
    ((errorsQueryEnabled status = true) ↔ status = "failed") := by
  intro s l
  cases l <;> by_cases h : s = "failed" <;>
    simp [renderSearchErrorPanel, errorsQueryEnabled, h]

/-- C10 witness: a completed search renders no panel. -/
theorem c10_witness : renderSearchErrorPanel "completed" false = none :=
  (c10_panelGating "completed" false).1.mpr (by decide)

end TitleSearch
